import Mathlib

/-!
Verification of the MBU_Driftsstatus_Rapporter report pipeline.

The development shallowly embeds the two source files of the repository:
`robot_framework/process.py` and
`robot_framework/sub_processes/report_handler.py` (class `ReportGenerator`).
Database values are modelled by an explicit `Value` type (strings, integral
timestamps, SQL NULL), rows by association lists in column order (the Python
code builds each row as `dict(zip(columns, row))`, preserving column order),
and the database/SMTP effects by explicit environments.  Query results are
indexed by a call counter so that distinct executions of the same SQL text
may observe different database states, which is what the consistency claims
about the alert flag are about.
-/

namespace DriftReport

/-- A scalar cell value as returned by the database driver: a string, an
integral value (timestamps are modelled as integers), or SQL NULL. -/
inductive Value where
  | str : String → Value
  | int : Int → Value
  | null : Value
deriving DecidableEq, Repr

/-- The text Python interpolates for a value in an f-string (`str(value)`;
`str(None)` is `"None"`). -/
def valueText : Value → String
  | Value.str s => s
  | Value.int n => toString n
  | Value.null => "None"

/-- One result row: an ordered mapping from column name to value, as built by
`dict(zip(columns, row))` in `fetch_data` (report_handler.py line 43). -/
abbrev Row := List (String × Value)

/-- A database-level failure (a `pyodbc` error raised during connection or
query execution). -/
structure DbError where
  msg : String
deriving DecidableEq, Repr

/-- Embedding of `ReportGenerator.convert_to_html_table`
(report_handler.py lines 171-190): an empty list yields the fixed Danish
placeholder; otherwise the header cells come from the keys of the first row
and each row contributes one `<tr>` with one `<td>` per value, interpolated
with no escaping. -/
def convert_to_html_table (data : List Row) : String :=
  match data with
  | [] => "<p>Ingen data tilgængelig.</p>"
  | first :: _ =>
    let header_html := String.join (first.map (fun p => "<th>" ++ p.1 ++ "</th>"))
    let rows_html := String.join (data.map (fun row =>
      "<tr>" ++ String.join (row.map (fun p => "<td>" ++ valueText p.2 ++ "</td>")) ++ "</tr>"))
    "<table><thead><tr>" ++ header_html ++ "</tr></thead><tbody>" ++ rows_html ++ "</tbody></table>"

/-- The SQL text of `missed_runs_report` (report_handler.py lines 52-59). -/
def missed_runs_query : String :=
  "\n            SELECT t.trigger_name, t.process_name, t.last_run, st.next_run\n            FROM [RPA].[dbo].[Triggers] t\n            JOIN [RPA].[dbo].[Scheduled_Triggers] st ON t.id = st.id\n            WHERE t.last_run < st.next_run\n              AND GETDATE() > st.next_run\n            ORDER BY trigger_name\n        "

/-- The SQL text of `process_failure_report` (report_handler.py lines 68-74). -/
def process_failure_query : String :=
  "\n            SELECT t.trigger_name, t.process_name, t.last_run, t.process_status\n            FROM [RPA].[dbo].[Triggers] t\n            WHERE t.process_status = 'Failed'\n              AND t.last_run > DATEADD(day, -7, GETDATE())\n            ORDER BY trigger_name\n        "

/-- The SQL text of `process_status_report` (report_handler.py lines 83-89). -/
def process_status_query : String :=
  "\n            SELECT t.trigger_name, t.process_status, st.next_run, t.last_run\n            FROM [RPA].[dbo].[Triggers] t\n            JOIN [RPA].[dbo].[Scheduled_Triggers] st ON t.id = st.id\n            WHERE t.last_run IS NOT NULL\n            ORDER BY trigger_name\n        "

/-- The SQL text of `overdue_processes_report` (report_handler.py lines 98-104). -/
def overdue_processes_query : String :=
  "\n            SELECT t.trigger_name, t.process_name, st.next_run, t.last_run\n            FROM [RPA].[dbo].[Triggers] t\n            JOIN [RPA].[dbo].[Scheduled_Triggers] st ON t.id = st.id\n            WHERE st.next_run < GETDATE()\n            ORDER BY trigger_name\n        "

/-- The database environment seen through `fetch_data`: the result of the
n-th query execution of the run, for a given SQL text.  Indexing by the call
counter lets two executions of the same text observe different database
states (the database is written to concurrently by the RPA fleet). -/
abbrev Env := Nat → String → Except DbError (List Row)

/-- Embedding of `ReportGenerator.fetch_data` (report_handler.py lines 35-44)
at the interface level: the k-th query execution returns the rows the
database held at that moment, or raises a database error. -/
def fetch_data (env : Env) (k : Nat) (q : String) : Except DbError (List Row) :=
  env k q

/-- The Jinja2 template of `generate_html_report` (report_handler.py lines
122-154) with the four `\x7b\x7b ... | safe \x7d\x7d` placeholders substituted, which is
exactly what `Template(html_template).render(...)` produces on lines 161-167. -/
def rendered_template (missed_runs_table process_failures_table overdue_processes_table process_status_table : String) : String :=
  "\n        <html>\n        <head>\n        <style>\n            table, th, td \x7b\n                border: 1px solid black;\n                border-collapse: collapse;\n                padding: 8px;\n                font-size: 14px;  /* Mindre fontstørrelse for tabeller */\n            \x7d\n            h3 \x7b\n                font-size: 16px;  /* Mindre fontstørrelse for overskrifter */\n            \x7d\n            body \x7b\n                font-size: 12px;  /* Generel fontstørrelse for hele dokumentet */\n            \x7d\n        </style>\n        </head>\n        <body>\n            <h3>Manglende kørsler</h3>\n            "
    ++ missed_runs_table
    ++ "\n        <br/><br/>\n            <h3>Fejlede processer (Sidste 7 Dage)</h3>\n            "
    ++ process_failures_table
    ++ "\n        <br/><br/>\n            <h3>Forsinkede processer</h3>\n            "
    ++ overdue_processes_table
    ++ "\n        <br/><br/>\n            <h3>Processtatus</h3>\n            "
    ++ process_status_table
    ++ "\n        </body>\n        </html>\n        "

/-- Embedding of `ReportGenerator.generate_html_report` (report_handler.py
lines 107-169): fetch the four result sets (in source order: missed runs at
call k, overdue at k+1, failures at k+2, status at k+3), derive the alert
flag as `bool(missed_runs or overdue_processes)` (line 120), convert each of
the four fetched result sets to a table fragment and render the template.
A database error in any fetch propagates. -/
def generate_html_report (env : Env) (k : Nat) : Except DbError (String × Bool) := do
  let missed_runs ← fetch_data env k missed_runs_query
  let overdue_processes ← fetch_data env (k+1) overdue_processes_query
  let process_failures ← fetch_data env (k+2) process_failure_query
  let process_status ← fetch_data env (k+3) process_status_query
  let alert_flag := !missed_runs.isEmpty || !overdue_processes.isEmpty
  let missed_runs_table := convert_to_html_table missed_runs
  let overdue_processes_table := convert_to_html_table overdue_processes
  let process_failures_table := convert_to_html_table process_failures
  let process_status_table := convert_to_html_table process_status
  let html_content := rendered_template missed_runs_table process_failures_table overdue_processes_table process_status_table
  return (html_content, alert_flag)

/-- The email settings dictionary built in process.py lines 15-20 (the SMTP
port is formatted into a string there). -/
structure EmailSettings where
  from_email : String
  to_email : String
  smtp_server : String
  smtp_port : String
deriving DecidableEq, Repr

/-- The MIME message handed to `smtplib.SMTP.send_message`: its headers in
the order `send_email` sets them, and the attached HTML body. -/
structure EmailMsg where
  headers : List (String × String)
  body : String
deriving DecidableEq, Repr

/-- The subject suffix appended on report_handler.py line 205 when the alert
flag is set. -/
def warning_suffix : String := " - ⚠️ Advarsel. Handling påkrævet ⚠️"

/-- The message-construction part of `ReportGenerator.send_email`
(report_handler.py lines 200-214): subject `RPA - Driftsrapport`, with the
warning suffix appended and the three priority headers set exactly when the
alert flag is true, then the From/To/Subject headers and the HTML body. -/
def build_msg (html_content : String) (alert_flag : Bool) (es : EmailSettings) : EmailMsg :=
  let subject := if alert_flag then "RPA - Driftsrapport" ++ warning_suffix else "RPA - Driftsrapport"
  let priority_headers :=
    if alert_flag then
      [("X-Priority", "1"), ("X-MSMail-Priority", "High"), ("Importance", "High")]
    else []
  { headers := priority_headers ++ [("From", es.from_email), ("To", es.to_email), ("Subject", subject)]
    body := html_content }

/-- Embedding of `ReportGenerator.send_email` (report_handler.py lines
192-219).  The `html_content` argument is immediately shadowed on line 199 by
a fresh call to `generate_html_report`, so the argument may have any type and
is never used.  A successful result is the message submitted over SMTP; a
database error from the recomputation propagates and nothing is submitted. -/
def send_email {α : Type} (env : Env) (k : Nat) (es : EmailSettings) (html_content : α) : Except DbError EmailMsg := do
  let (html_content2, alert_flag) ← generate_html_report env k
  return build_msg html_content2 alert_flag es

/-- The static configuration module `robot_framework.config` referenced by
process.py (SMTP host and port); its values are opaque to the claims. -/
structure RobotConfig where
  SMTP_SERVER : String
  SMTP_PORT : String

/-- The required job arguments (process.py lines 13-17). -/
structure ProcessArgs where
  fromEmail : String
  toEmail : String

/-- Embedding of `process` (process.py lines 9-28): build the settings,
compute the report bundle once (queries 0-3), then call `send_email`, which
recomputes it (queries 4-7) and submits the message. -/
def process (env : Env) (cfg : RobotConfig) (args : ProcessArgs) : Except DbError EmailMsg := do
  let email_settings : EmailSettings :=
    { from_email := args.fromEmail
      to_email := args.toEmail
      smtp_server := cfg.SMTP_SERVER
      smtp_port := cfg.SMTP_PORT }
  let html_report ← generate_html_report env 0
  send_email env 4 email_settings html_report

/-- Connection lifecycle events of one `fetch_data` call. -/
inductive ConnEvent where
  | connOpened : ConnEvent
  | connClosed : ConnEvent
deriving DecidableEq, Repr

/-- Result and connection-event trace of one `fetch_data` call. -/
structure FetchOutcome where
  result : Except DbError (List Row)
  events : List ConnEvent
deriving Repr

/-- Embedding of `ReportGenerator.fetch_data` (report_handler.py lines 35-44)
with the connection lifecycle made explicit.  `cursor_exec` is the outcome of
`cursor.execute(query)` / `cursor.fetchall()`: on success the column names
and the raw row tuples.  The function body is straight-line code with no
`try`/`finally` and no `with` block: `conn.close()` on line 42 runs only when
execution succeeds; a raised database error propagates out before it. -/
def fetch_data_traced (cursor_exec : String → Except DbError (List String × List (List Value))) (q : String) : FetchOutcome :=
  match cursor_exec q with
  | Except.error e => { result := Except.error e, events := [ConnEvent.connOpened] }
  | Except.ok cr =>
    { result := Except.ok (cr.2.map (fun row => cr.1.zip row))
      events := [ConnEvent.connOpened, ConnEvent.connClosed] }

/-- A row of the `Triggers` table (schema per spec §6: id, trigger_name,
process_name, last_run, process_status; `last_run` and `process_status` are
nullable). -/
structure TriggerRow where
  id : Int
  trigger_name : String
  process_name : String
  last_run : Option Int
  process_status : Option String
deriving DecidableEq, Repr

/-- A row of the `Scheduled_Triggers` table (id, next_run; nullable). -/
structure ScheduledTriggerRow where
  id : Int
  next_run : Option Int
deriving DecidableEq, Repr

/-- A snapshot of the two database tables the queries read. -/
structure Database where
  triggers : List TriggerRow
  scheduled_triggers : List ScheduledTriggerRow
deriving DecidableEq, Repr

/-- SQL three-valued `<` on nullable timestamps, as used in a `WHERE` clause:
a comparison with NULL is not true, so the row is filtered out. -/
def sqlLt : Option Int → Option Int → Bool
  | some a, some b => decide (a < b)
  | _, _ => false

/-- The driver value of a nullable timestamp column. -/
def optTimeValue : Option Int → Value
  | some n => Value.int n
  | none => Value.null

/-- The row produced by the `SELECT` list of `missed_runs_report`:
`t.trigger_name, t.process_name, t.last_run, st.next_run` in that order. -/
def missed_row (t : TriggerRow) (st : ScheduledTriggerRow) : Row :=
  [("trigger_name", Value.str t.trigger_name),
   ("process_name", Value.str t.process_name),
   ("last_run", optTimeValue t.last_run),
   ("next_run", optTimeValue st.next_run)]

/-- The inner join `Triggers t JOIN Scheduled_Triggers st ON t.id = st.id`. -/
def joined_triggers (db : Database) : List (TriggerRow × ScheduledTriggerRow) :=
  db.triggers.flatMap (fun t =>
    (db.scheduled_triggers.filter (fun st => st.id == t.id)).map (fun st => (t, st)))

/-- Relational semantics of the `missed_runs_report` SQL (report_handler.py
lines 52-59) over a database snapshot, with `GETDATE()` equal to `now`:
join, keep the pairs with `t.last_run < st.next_run AND GETDATE() >
st.next_run` (SQL NULL semantics), order by `trigger_name` ascending, and
project the `SELECT` list. -/
def missed_runs_rows (db : Database) (now : Int) : List Row :=
  ((((joined_triggers db).filter
      (fun p => sqlLt p.1.last_run p.2.next_run && sqlLt p.2.next_run (some now))).mergeSort
      (fun p q => decide (p.1.trigger_name ≤ q.1.trigger_name))).map
      (fun p => missed_row p.1 p.2))

/-- The `trigger_name` column of a result row (used to state the ordering
of a report). -/
def row_trigger_name (r : Row) : String :=
  match r.lookup "trigger_name" with
  | some (Value.str s) => s
  | _ => ""

/-- Substring test on strings (decidable, used to state what an HTML
fragment or a subject line contains). -/
def containsSub (s pat : String) : Bool :=
  decide (pat.data <:+: s.data)

/-- The `Subject` header of a built message. -/
def subject_of (m : EmailMsg) : String :=
  match m.headers.lookup "Subject" with
  | some s => s
  | none => ""

/-- A `<th>` header cell for a column name. -/
def th_cell (c : String) : String := "<th>" ++ c ++ "</th>"

/-- A `<td>` body cell for a value. -/
def td_cell (v : Value) : String := "<td>" ++ valueText v ++ "</td>"

/-- The `<tr>` fragment emitted for one row. -/
def tr_row (row : Row) : String :=
  "<tr>" ++ String.join (row.map (fun p => td_cell p.2)) ++ "</tr>"

/-- The environment in which every query returns no rows. -/
def empty_env : Env := fun _ _ => Except.ok []

/-- The report rendered when all four result sets are empty. -/
def empty_report_html : String :=
  rendered_template (convert_to_html_table []) (convert_to_html_table [])
    (convert_to_html_table []) (convert_to_html_table [])

/-- A cursor execution that succeeds with no columns and no rows. -/
def ok_cursor_exec : String → Except DbError (List String × List (List Value)) :=
  fun _ => Except.ok ([], [])

section Helpers

lemma except_bind_eq_ok {ε α β : Type} {x : Except ε α} {g : α → Except ε β} {b : β} :
    (x >>= g) = Except.ok b ↔ ∃ a, x = Except.ok a ∧ g a = Except.ok b := by
  cases x <;> simp [Bind.bind, Except.bind]

lemma except_pure_eq_ok {ε α : Type} {a b : α} :
    (pure a : Except ε α) = Except.ok b ↔ a = b := by
  simp [pure, Except.pure]

lemma infix_flatten_of_mem {α : Type} {x : List α} {L : List (List α)} (hx : x ∈ L) :
    x <:+: L.flatten := by
  induction L with
  | nil => cases hx
  | cons a t ih =>
    rcases List.mem_cons.mp hx with rfl | h2
    · exact ⟨[], t.flatten, by simp⟩
    · rcases ih h2 with ⟨s, u, hs⟩
      exact ⟨a ++ s, u, by simp [← hs]⟩

lemma th_cell_injective : Function.Injective th_cell := by
  intro a b hab
  have h := congrArg String.data hab
  simp only [th_cell, String.data_append] at h
  exact String.ext (List.append_cancel_left (List.append_cancel_right h))

lemma sqlLt_eq_true_iff {x y : Option Int} :
    sqlLt x y = true ↔ ∃ a b, x = some a ∧ y = some b ∧ a < b := by
  cases x <;> cases y <;> simp [sqlLt]

lemma row_trigger_name_missed_row (t : TriggerRow) (st : ScheduledTriggerRow) :
    row_trigger_name (missed_row t st) = t.trigger_name := by
  simp [row_trigger_name, missed_row, List.lookup]

end Helpers

/-- C4: on the empty result set, `convert_to_html_table` returns the fixed
"no data available" placeholder, and that output contains no `<table>`
element. -/
theorem empty_table_is_placeholder_without_table :
    convert_to_html_table [] = "<p>Ingen data tilgængelig.</p>" ∧
    containsSub (convert_to_html_table []) "<table>" = false :=
  ⟨rfl, by decide⟩

/-- C7: `convert_to_html_table` interpolates cell values into the HTML
output with no escaping: any string value of any cell of any rendered row
appears verbatim as a substring of the produced fragment, markup characters
included. -/
theorem cell_values_unescaped_in_table (data : List Row) (row : Row) (c v : String)
    (hrow : row ∈ data) (hc : (c, Value.str v) ∈ row) :
    containsSub (convert_to_html_table data) v = true := by
  match data with
  | [] => cases hrow
  | first :: rest =>
    simp only [containsSub, decide_eq_true_eq, convert_to_html_table]
    have hcell : v.data <:+: (td_cell (Value.str v)).data :=
      ⟨"<td>".data, "</td>".data, by simp [td_cell, valueText]⟩
    have hrowfrag : (td_cell (Value.str v)).data <:+:
        (tr_row row).data := by
      have hmem : (td_cell (Value.str v)).data ∈
          (row.map (fun p => td_cell p.2)).map String.data :=
        List.mem_map_of_mem _ (List.mem_map_of_mem _ hc)
      have h1 : (td_cell (Value.str v)).data <:+:
          (String.join (row.map (fun p => td_cell p.2))).data := by
        rw [String.data_join]
        exact infix_flatten_of_mem hmem
      rcases h1 with ⟨s, u, hs⟩
      exact ⟨"<tr>".data ++ s, u ++ "</tr>".data, by
        simp only [tr_row, String.data_append]
        rw [← hs]; simp⟩
    have hrows : (tr_row row).data <:+:
        (String.join ((first :: rest).map tr_row)).data := by
      rw [String.data_join]
      exact infix_flatten_of_mem (List.mem_map_of_mem _ (List.mem_map_of_mem _ hrow))
    have htotal : (String.join ((first :: rest).map tr_row)).data <:+:
        ("<table><thead><tr>" ++ String.join (first.map (fun p => "<th>" ++ p.1 ++ "</th>")) ++
          "</tr></thead><tbody>" ++ String.join ((first :: rest).map (fun r =>
            "<tr>" ++ String.join (r.map (fun p => "<td>" ++ valueText p.2 ++ "</td>")) ++ "</tr>")) ++
          "</tbody></table>").data := by
      have hj : (first :: rest).map (fun r =>
          "<tr>" ++ String.join (r.map (fun p => "<td>" ++ valueText p.2 ++ "</td>")) ++ "</tr>") =
          (first :: rest).map tr_row := by
        simp [tr_row, td_cell]
      rw [hj]
      exact ⟨("<table><thead><tr>" ++ String.join (first.map (fun p => "<th>" ++ p.1 ++ "</th>")) ++
        "</tr></thead><tbody>").data, "</tbody></table>".data, by simp⟩
    exact (hcell.trans hrowfrag).trans (hrows.trans htotal)

/-- Witness for C7 at a markup-bearing value: the markup appears verbatim in
the rendered fragment. -/
theorem cell_values_unescaped_in_table_witness :
    containsSub (convert_to_html_table [[("process_name", Value.str "<b>Ikke escaped</b>")]])
      "<b>Ikke escaped</b>" = true :=
  cell_values_unescaped_in_table [[("process_name", Value.str "<b>Ikke escaped</b>")]]
    [("process_name", Value.str "<b>Ikke escaped</b>")] "process_name" "<b>Ikke escaped</b>"
    (by decide) (by decide)

/-- C8 counterexample: a failing query execution leaves the connection open.
With a cursor execution that raises a database error, the trace of
`fetch_data` records the connection acquisition but no release: the claim
that the connection is released on every exit path fails on this input. -/
theorem fetch_data_leaks_connection_on_error :
    ConnEvent.connClosed ∉
      (fetch_data_traced (fun _ => Except.error ⟨"connection failure"⟩) missed_runs_query).events := by
  decide

/-- C8 amended: `fetch_data` acquires the connection first on every path,
but releases it exactly when query execution succeeds; on a database error
the `conn.close()` on line 42 is skipped (the function body has no
`try`/`finally` or `with` block). -/
theorem fetch_data_releases_connection_iff_success
    (cursor_exec : String → Except DbError (List String × List (List Value))) (q : String) :
    ((fetch_data_traced cursor_exec q).events =
      if (cursor_exec q).isOk then [ConnEvent.connOpened, ConnEvent.connClosed]
      else [ConnEvent.connOpened]) ∧
    (ConnEvent.connClosed ∈ (fetch_data_traced cursor_exec q).events ↔
      (cursor_exec q).isOk = true) := by
  cases h : cursor_exec q <;> simp [fetch_data_traced, h, Except.isOk, Except.toBool]

/-- C10 counterexample: a result set whose second row has a column set that
mismatches the header derived from row 0 is rendered silently into an
ordinary table (one `<th>` from row 0, body rows with differing cell
counts); no error value of any kind is produced. -/
theorem mismatched_rows_rendered_silently_counterexample :
    convert_to_html_table [[("a", Value.int 1)], [("b", Value.int 2), ("c", Value.int 3)]] =
      "<table><thead><tr><th>a</th></tr></thead><tbody><tr><td>1</td></tr><tr><td>2</td><td>3</td></tr></tbody></table>" := by
  rfl

/-- C10 amended: `convert_to_html_table` performs no shape validation and is
total: for every non-empty input, homogeneous or not, it renders the header
from the keys of row 0 and one body row per entry, each row with one cell
per its own entries. -/
theorem mismatched_rows_rendered_silently (r : Row) (rs : List Row) :
    convert_to_html_table (r :: rs) =
      "<table><thead><tr>" ++ String.join ((r.map Prod.fst).map th_cell) ++
        "</tr></thead><tbody>" ++ String.join ((r :: rs).map tr_row) ++ "</tbody></table>" := by
  rw [List.map_map]
  rfl

/-- C3: for every non-empty list of rows, the table fragment carries exactly
one header cell per distinct key of the first row, in that row's key order,
and exactly one body row per entry, in input order, each cell holding the
textual representation of its value. -/
theorem table_fragment_headers_and_rows (r : Row) (rs : List Row)
    (hnd : (r.map Prod.fst).Nodup) :
    convert_to_html_table (r :: rs) =
      "<table><thead><tr>" ++ String.join ((r.map Prod.fst).map th_cell) ++
        "</tr></thead><tbody>" ++ String.join ((r :: rs).map tr_row) ++ "</tbody></table>" ∧
    (∀ c ∈ r.map Prod.fst, ((r.map Prod.fst).map th_cell).count (th_cell c) = 1) ∧
    ((r :: rs).map tr_row).length = (r :: rs).length := by
  refine ⟨?_, ?_, by simp⟩
  · rw [List.map_map]; rfl
  · intro c hc
    exact List.count_eq_one_of_mem (hnd.map th_cell_injective) (List.mem_map_of_mem _ hc)

/-- Witness for C3 at a concrete two-column, two-row result set. -/
theorem table_fragment_headers_and_rows_witness :
    convert_to_html_table ([("a", Value.int 1), ("b", Value.str "x")] ::
        [[("a", Value.int 2), ("b", Value.null)]]) =
      "<table><thead><tr>" ++
        String.join ((([("a", Value.int 1), ("b", Value.str "x")] : Row).map Prod.fst).map th_cell) ++
        "</tr></thead><tbody>" ++
        String.join ((([("a", Value.int 1), ("b", Value.str "x")] : Row) ::
          [[("a", Value.int 2), ("b", Value.null)]]).map tr_row) ++ "</tbody></table>" ∧
    (∀ c ∈ (([("a", Value.int 1), ("b", Value.str "x")] : Row)).map Prod.fst,
      (((([("a", Value.int 1), ("b", Value.str "x")] : Row)).map Prod.fst).map th_cell).count (th_cell c) = 1) ∧
    (((([("a", Value.int 1), ("b", Value.str "x")] : Row)) ::
      [[("a", Value.int 2), ("b", Value.null)]]).map tr_row).length =
      ((([("a", Value.int 1), ("b", Value.str "x")] : Row)) ::
        [[("a", Value.int 2), ("b", Value.null)]]).length :=
  table_fragment_headers_and_rows [("a", Value.int 1), ("b", Value.str "x")]
    [[("a", Value.int 2), ("b", Value.null)]] (by decide)

/-- C5: the built email carries the warning suffix in its subject and the
three high-priority headers exactly when the alert flag is true; when it is
false the suffix and all three headers are absent. -/
theorem subject_and_priority_iff_alert (html : String) (alert : Bool) (es : EmailSettings) :
    ((containsSub (subject_of (build_msg html alert es)) warning_suffix = true ∧
      ("X-Priority", "1") ∈ (build_msg html alert es).headers ∧
      ("X-MSMail-Priority", "High") ∈ (build_msg html alert es).headers ∧
      ("Importance", "High") ∈ (build_msg html alert es).headers) ↔ alert = true) ∧
    (alert = false →
      containsSub (subject_of (build_msg html alert es)) warning_suffix = false ∧
      "X-Priority" ∉ (build_msg html alert es).headers.map Prod.fst ∧
      "X-MSMail-Priority" ∉ (build_msg html alert es).headers.map Prod.fst ∧
      "Importance" ∉ (build_msg html alert es).headers.map Prod.fst) := by
  cases alert with
  | false =>
    have hsub : subject_of (build_msg html false es) = "RPA - Driftsrapport" := rfl
    constructor
    · constructor
      · rintro ⟨-, hp, -, -⟩
        exfalso
        simp [build_msg] at hp
      · intro h
        exact absurd h (by simp)
    · intro _
      refine ⟨by rw [hsub]; decide, ?_, ?_, ?_⟩ <;> simp [build_msg]
  | true =>
    have hsub : subject_of (build_msg html true es) =
        "RPA - Driftsrapport" ++ warning_suffix := rfl
    constructor
    · constructor
      · intro _; rfl
      · intro _
        refine ⟨by rw [hsub]; decide, ?_, ?_, ?_⟩ <;> simp [build_msg]
    · intro h
      exact absurd h (by simp)

/-- C1: whenever `generate_html_report` succeeds, the four result sets were
fetched once each, the alert flag is true exactly when the missed-runs or
the overdue-processes result set is non-empty (any of the four boolean
combinations), and the returned HTML is rendered from those same four
fetched result sets. -/
theorem alert_flag_iff_nonempty_missed_or_overdue (env : Env) (k : Nat)
    (html : String) (flag : Bool)
    (hgen : generate_html_report env k = Except.ok (html, flag)) :
    ∃ m o fl st,
      fetch_data env k missed_runs_query = Except.ok m ∧
      fetch_data env (k+1) overdue_processes_query = Except.ok o ∧
      fetch_data env (k+2) process_failure_query = Except.ok fl ∧
      fetch_data env (k+3) process_status_query = Except.ok st ∧
      (flag = true ↔ m ≠ [] ∨ o ≠ []) ∧
      html = rendered_template (convert_to_html_table m) (convert_to_html_table fl)
        (convert_to_html_table o) (convert_to_html_table st) := by
  simp only [generate_html_report, except_bind_eq_ok, except_pure_eq_ok] at hgen
  obtain ⟨m, hm, o, ho, fl, hf, st, hs, hpair⟩ := hgen
  have h1 := congrArg Prod.fst hpair
  have h2 := congrArg Prod.snd hpair
  simp only at h1 h2
  refine ⟨m, o, fl, st, hm, ho, hf, hs, ?_, h1.symm⟩
  rw [← h2]
  simp [List.isEmpty_iff]

/-- Witness for C1 in the all-empty environment: the flag is false and the
report renders the four placeholder fragments. -/
theorem alert_flag_iff_nonempty_missed_or_overdue_witness :
    ∃ m o fl st,
      fetch_data empty_env 0 missed_runs_query = Except.ok m ∧
      fetch_data empty_env 1 overdue_processes_query = Except.ok o ∧
      fetch_data empty_env 2 process_failure_query = Except.ok fl ∧
      fetch_data empty_env 3 process_status_query = Except.ok st ∧
      (false = true ↔ m ≠ [] ∨ o ≠ []) ∧
      empty_report_html = rendered_template (convert_to_html_table m) (convert_to_html_table fl)
        (convert_to_html_table o) (convert_to_html_table st) :=
  alert_flag_iff_nonempty_missed_or_overdue empty_env 0 empty_report_html false rfl

/-- C6: a database error in any of the four query executions makes the run
abort with that error and no message is submitted; only when all four
succeed is the fully rendered report emailed. -/
theorem no_email_on_query_failure (env : Env) (k : Nat) (es : EmailSettings)
    {α : Type} (a : α) :
    (∀ e, fetch_data env k missed_runs_query = Except.error e →
      send_email env k es a = Except.error e) ∧
    (∀ m e, fetch_data env k missed_runs_query = Except.ok m →
      fetch_data env (k+1) overdue_processes_query = Except.error e →
      send_email env k es a = Except.error e) ∧
    (∀ m o e, fetch_data env k missed_runs_query = Except.ok m →
      fetch_data env (k+1) overdue_processes_query = Except.ok o →
      fetch_data env (k+2) process_failure_query = Except.error e →
      send_email env k es a = Except.error e) ∧
    (∀ m o fl e, fetch_data env k missed_runs_query = Except.ok m →
      fetch_data env (k+1) overdue_processes_query = Except.ok o →
      fetch_data env (k+2) process_failure_query = Except.ok fl →
      fetch_data env (k+3) process_status_query = Except.error e →
      send_email env k es a = Except.error e) ∧
    (∀ m o fl st, fetch_data env k missed_runs_query = Except.ok m →
      fetch_data env (k+1) overdue_processes_query = Except.ok o →
      fetch_data env (k+2) process_failure_query = Except.ok fl →
      fetch_data env (k+3) process_status_query = Except.ok st →
      send_email env k es a = Except.ok (build_msg
        (rendered_template (convert_to_html_table m) (convert_to_html_table fl)
          (convert_to_html_table o) (convert_to_html_table st))
        (!m.isEmpty || !o.isEmpty) es)) := by
  refine ⟨?_, ?_, ?_, ?_, ?_⟩
  · intro e he
    simp [send_email, generate_html_report, he, Bind.bind, Except.bind]
  · intro m e hm he
    simp [send_email, generate_html_report, hm, he, Bind.bind, Except.bind]
  · intro m o e hm ho he
    simp [send_email, generate_html_report, hm, ho, he, Bind.bind, Except.bind]
  · intro m o fl e hm ho hf he
    simp [send_email, generate_html_report, hm, ho, hf, he, Bind.bind, Except.bind]
  · intro m o fl st hm ho hf hs
    simp [send_email, generate_html_report, hm, ho, hf, hs, Bind.bind, Except.bind,
      Pure.pure, Except.pure]

section MissedRunsLemmas

lemma trigger_le_trans (a b c : TriggerRow × ScheduledTriggerRow)
    (h1 : decide (a.1.trigger_name ≤ b.1.trigger_name) = true)
    (h2 : decide (b.1.trigger_name ≤ c.1.trigger_name) = true) :
    decide (a.1.trigger_name ≤ c.1.trigger_name) = true := by
  simp only [decide_eq_true_eq] at h1 h2 ⊢
  exact le_trans h1 h2

lemma trigger_le_total (a b : TriggerRow × ScheduledTriggerRow) :
    (decide (a.1.trigger_name ≤ b.1.trigger_name) ||
      decide (b.1.trigger_name ≤ a.1.trigger_name)) = true := by
  rcases le_total a.1.trigger_name b.1.trigger_name with h | h <;> simp [h]

end MissedRunsLemmas

/-- C2: the missed-runs query returns exactly the joined trigger rows whose
recorded last run is strictly earlier than the next scheduled run and whose
next scheduled run is strictly earlier than the current time, ordered by
trigger name ascending, with columns trigger_name, process_name, last_run,
next_run. -/
theorem missed_runs_query_selects_exactly (db : Database) (now : Int) :
    (∀ r, r ∈ missed_runs_rows db now ↔
      ∃ t st, t ∈ db.triggers ∧ st ∈ db.scheduled_triggers ∧ st.id = t.id ∧
        (∃ l n, t.last_run = some l ∧ st.next_run = some n ∧ l < n ∧ n < now) ∧
        r = missed_row t st) ∧
    List.Pairwise (fun r₁ r₂ => row_trigger_name r₁ ≤ row_trigger_name r₂)
      (missed_runs_rows db now) ∧
    (∀ r ∈ missed_runs_rows db now,
      r.map Prod.fst = ["trigger_name", "process_name", "last_run", "next_run"]) := by
  refine ⟨?_, ?_, ?_⟩
  · intro r
    constructor
    · intro hr
      obtain ⟨p, hp, rfl⟩ := List.mem_map.mp hr
      rw [List.mem_mergeSort] at hp
      obtain ⟨hj, hpred⟩ := List.mem_filter.mp hp
      obtain ⟨t, ht, hmem2⟩ := List.mem_flatMap.mp hj
      obtain ⟨st, hstf, hpe⟩ := List.mem_map.mp hmem2
      obtain ⟨hst, hid⟩ := List.mem_filter.mp hstf
      subst hpe
      rw [Bool.and_eq_true] at hpred
      obtain ⟨l, n, hl, hn, hln⟩ := sqlLt_eq_true_iff.mp hpred.1
      obtain ⟨n2, now2, hn2, hnow2, hlt2⟩ := sqlLt_eq_true_iff.mp hpred.2
      have hn2n : n2 = n := by rw [hn] at hn2; exact (Option.some.inj hn2).symm
      have hnow2now : now2 = now := Option.some.inj hnow2.symm
      refine ⟨t, st, ht, hst, by simpa using hid, ⟨l, n, hl, hn, hln, ?_⟩, rfl⟩
      rw [← hn2n, ← hnow2now]
      exact hlt2
    · rintro ⟨t, st, ht, hst, hid, ⟨l, n, hl, hn, hln, hnow⟩, rfl⟩
      apply List.mem_map.mpr
      refine ⟨(t, st), ?_, rfl⟩
      rw [List.mem_mergeSort]
      apply List.mem_filter.mpr
      refine ⟨List.mem_flatMap.mpr ⟨t, ht,
        List.mem_map.mpr ⟨st, List.mem_filter.mpr ⟨hst, by simp [hid]⟩, rfl⟩⟩, ?_⟩
      simp [sqlLt, hl, hn, hln, hnow]
  · simp only [missed_runs_rows]
    rw [List.pairwise_map]
    have hsorted := List.sorted_mergeSort trigger_le_trans trigger_le_total
      ((joined_triggers db).filter
        (fun p => sqlLt p.1.last_run p.2.next_run && sqlLt p.2.next_run (some now)))
    refine hsorted.imp ?_
    intro p q hpq
    rw [row_trigger_name_missed_row, row_trigger_name_missed_row]
    exact of_decide_eq_true hpq
  · intro r hr
    obtain ⟨p, hp, rfl⟩ := List.mem_map.mp hr
    rfl

/-- C9: the message the mailer submits does not depend on the
`html_content` argument of `send_email`: for any two argument values (of any
types) over the same database environment the same message results, and that
message is recomputed from a fresh `generate_html_report` bundle. -/
theorem send_email_ignores_html_argument (env : Env) (k : Nat) (es : EmailSettings)
    {α β : Type} (a : α) (b : β) :
    send_email env k es a = send_email env k es b ∧
    send_email env k es a =
      Except.map (fun hf => build_msg hf.1 hf.2 es) (generate_html_report env k) := by
  refine ⟨rfl, ?_⟩
  cases h : generate_html_report env k with
  | error e => simp [send_email, h, Except.map]
  | ok p => cases p with
    | mk x y => simp [send_email, h, Except.map]

end DriftReport
